import Mathlib

/-!
Verification of the o365graph gateway (src/service/o365graph.py) against its
natural-language specification.  The Python source is shallowly embedded:
each method becomes a pure Lean function, the ambient HTTP world is an
explicit oracle argument, mutable object state is threaded explicitly, and
Python exceptions become an explicit error type.
-/

namespace O365

/-- Python runtime errors that the embedded code can raise.  Each constructor
corresponds to a concrete unhandled exception the source can produce. -/
inductive PyError
  /-- `raise` with no active exception (o365graph.py line 86): Python raises
  `RuntimeError: No active exception to re-raise`, carrying no payload. -/
  | runtimeNoActiveException
  /-- `"Bearer " + None` (line 88): `TypeError` from concatenating `None`. -/
  | typeErrorNoneConcat
  /-- reading `groupid` when no loop iteration assigned it (line 65):
  `UnboundLocalError`. -/
  | unboundLocal
  /-- `requests.get(None)` (line 204): `requests.exceptions.MissingSchema`. -/
  | missingSchema
  /-- `raise AssertionError(error_text)` (line 123). -/
  | assertionError (msg : String)
deriving DecidableEq

/-! ## Token Manager: `Graph.get_token` (lines 75-88) -/

/-- The token endpoint's response as observed by `get_token`:
`resp.ok`, `resp.content` (the body, used in the error log), and
`resp.json().get("access_token")`. -/
structure TokenResponse where
  ok : Bool
  content : String
  access_token : Option String
deriving DecidableEq

/-- Embeds `Graph.get_token` (lines 75-88).  Returns the log lines it writes and
either the new value of `self.auth_header`'s Authorization entry
(`"Bearer " + access_token`) or the exception raised.  The state update is
factored out into `get_token_final_header`. -/
def get_token (resp : TokenResponse) : List String × Except PyError String :=
  let logs := ["Acquiring new access token"]
  if resp.ok then
    match resp.access_token with
    | none => (logs, .error .typeErrorNoneConcat)
    | some t => (logs, .ok ("Bearer " ++ t))
  else
    (logs ++ ["Access token request failed. Error: " ++ resp.content],
     .error .runtimeNoActiveException)

/-- The value of `self.auth_header` after a `get_token` call: replaced on
success, untouched when the call raised (the assignment on line 88 is never
reached). -/
def get_token_final_header (resp : TokenResponse) (auth_header : Option String) :
    Option String :=
  match (get_token resp).2 with
  | .ok h => some h
  | .error _ => auth_header

/-! ## Authenticated Request Executor: `Graph.request` (lines 90-102) -/

/-- An HTTP response as observed by `Graph.request`. -/
structure HttpResponse where
  status : Nat
  body : String
deriving DecidableEq

/-- The mutable state of the `Graph` object used by `request`:
`self.session` (modelled as the Bool "a session exists") and
`self.auth_header` (the Authorization header value, `none` before the first
`get_token`). -/
structure GraphState where
  session : Bool
  auth_header : Option String
deriving DecidableEq

deriving instance DecidableEq for Except

/-- Everything observable about one `Graph.request` call: the sends performed
(with the Authorization header each one actually carried), how many times
`get_token` was invoked, the returned response or raised exception, and the
object state afterwards. -/
structure RequestTrace where
  sends : List (Option String × HttpResponse)
  tokenAcquisitions : Nat
  result : Except PyError HttpResponse
  finalState : GraphState
deriving DecidableEq

/-- Embeds `Graph.request` (lines 90-102).  Here `tokens i` is the token endpoint's answer
to the i-th `get_token` call made during this request; `responses i` is the
wire response to the i-th `session.send`.

Faithful detail: line 95 builds one `requests.Request` whose `headers`
attribute keeps referencing the dict `self.auth_header` pointed to at that
moment; `get_token` (line 88) REBINDS `self.auth_header` to a new dict and
never mutates the old one, so both `req.prepare()` calls (lines 97 and 100)
serialize the header dict captured at line 95. -/
def Graph.request (st : GraphState) (tokens : Nat → TokenResponse)
    (responses : Nat → HttpResponse) : RequestTrace :=
  -- lines 91-93: lazy session creation plus initial token acquisition
  let init : Except PyError (GraphState × Nat) :=
    if st.session then
      .ok (st, 0)
    else
      match (get_token (tokens 0)).2 with
      | .ok h => .ok (⟨true, some h⟩, 1)
      | .error e => .error e
  match init with
  | .error e =>
      { sends := [], tokenAcquisitions := 1, result := .error e,
        finalState := ⟨true, st.auth_header⟩ }
  | .ok (st1, tok_i) =>
      -- line 95: header snapshot taken when the Request object is built
      let req_headers := st1.auth_header
      let resp1 := responses 0
      if resp1.status == 401 then
        match (get_token (tokens tok_i)).2 with
        | .error e =>
            { sends := [(req_headers, resp1)], tokenAcquisitions := tok_i + 1,
              result := .error e, finalState := st1 }
        | .ok h =>
            let resp2 := responses 1
            { sends := [(req_headers, resp1), (req_headers, resp2)],
              tokenAcquisitions := tok_i + 1,
              result := .ok resp2,
              finalState := ⟨st1.session, some h⟩ }
      else
        { sends := [(req_headers, resp1)], tokenAcquisitions := tok_i,
          result := .ok resp1, finalState := st1 }

/-! ## Paged Entity Fetcher: `Graph.__get_all_paged_entities` (lines 104-134) -/

/-- One page response as observed by the fetch loop: `req.ok`,
`req.status_code`, `req.text`, `res.get(config.entities_path)` (the entity
collection, entities kept opaque as strings) and `res.get(config.next_page)`
(the next-page cursor, `none` when the field is null or missing). -/
structure Page where
  ok : Bool
  status : Nat
  text : String
  entities : List String
  nextPage : Option String
deriving DecidableEq

/-- How one run of the fetch loop ended: normal termination at a null/missing
cursor, the `AssertionError` raised on a non-success page (lines 120-123), or
the modelling fuel ran out (the Python loop is unbounded). -/
inductive FetchOutcome
  | done
  | failed (status : Nat) (text : String)
  | fuelExhausted
deriving DecidableEq

/-- Everything observable about one fetch-loop run: each request made (URL
paired with whether `params=args` was attached), the argument passed to each
`time.sleep` call, the entities yielded in order, and how the loop ended. -/
structure FetchTrace where
  requests : List (String × Bool)
  sleepArgs : List ℚ
  yielded : List String
  outcome : FetchOutcome
deriving DecidableEq

/-- Does `needle` match at the head of `hay`? (character-list helper) -/
def matchesAt : List Char → List Char → Bool
  | [], _ => true
  | _ :: _, [] => false
  | a :: as, b :: bs => a == b && matchesAt as bs

/-- Does `needle` occur as a contiguous run anywhere in `hay`? -/
def subOccurs (needle : List Char) : List Char → Bool
  | [] => matchesAt needle []
  | b :: bs => matchesAt needle (b :: bs) || subOccurs needle bs

/-- Python's substring test `needle in hay` for strings. -/
def strContainsSub (hay needle : String) : Bool :=
  subOccurs needle.data hay.data

/-- The `while next_page is not None` loop of `__get_all_paged_entities`
(lines 109-133).  `server` maps each requested URL to the page the wire
returns (the authenticated transport is modelled separately by
`Graph.request`); `sleepCfg` is `float(config.sleep)` when the optional
`sleep` setting is present; `fuel` bounds the number of iterations modelled. -/
def fetchLoop (server : String → Page) (sleepCfg : Option ℚ) :
    Nat → Option String → FetchTrace
  | _, none => ⟨[], [], [], .done⟩
  | 0, some _ => ⟨[], [], [], .fuelExhausted⟩
  | fuel + 1, some url =>
      -- lines 110-112: sleep(float(config.sleep)) when configured
      let sargs : List ℚ := match sleepCfg with | some d => [d] | none => []
      -- lines 115-118: params=args exactly when "$skiptoken" not in next_page
      let withArgs := !(strContainsSub url "$skiptoken")
      let page := server url
      if page.ok then
        let rest := fetchLoop server sleepCfg fuel page.nextPage
        ⟨(url, withArgs) :: rest.requests, sargs ++ rest.sleepArgs,
         page.entities ++ rest.yielded, rest.outcome⟩
      else
        -- lines 120-123: raise AssertionError on a non-success page
        ⟨[(url, withArgs)], sargs, [], .failed page.status page.text⟩

/-- Embeds `Graph.__get_all_paged_entities` (lines 104-134): start the loop at
`self.graph_url + path`. -/
def get_all_paged_entities (server : String → Page) (sleepCfg : Option ℚ)
    (graph_url path : String) (fuel : Nat) : FetchTrace :=
  fetchLoop server sleepCfg fuel (some (graph_url ++ path))

/-- Semantics of Python's `time.sleep(x)`: the argument is a count of
SECONDS, so the call suspends for `1000 * x` milliseconds. -/
def timeSleepMs (x : ℚ) : ℚ := 1000 * x

/-- Total real suspension, in milliseconds, incurred by the `sleep` calls of
one fetch-loop run. -/
def totalSuspensionMs (tr : FetchTrace) : ℚ :=
  (tr.sleepArgs.map timeSleepMs).sum

/-- The URL the fetch loop starts from for a given page chain
(the chain's pages are paired with the URLs that address them). -/
def chainStart : List (String × Page) → Option String
  | [] => none
  | (u, _) :: _ => some u

/-- Chain well-formedness: `isChainB server ch` holds when `ch` is a well-formed page chain under
`server`: each listed URL returns the listed page, every page is a success,
and each page's cursor points at the next listed URL (`none` at the end). -/
def isChainB (server : String → Page) : List (String × Page) → Bool
  | [] => true
  | (u, p) :: rest =>
      decide (server u = p) && p.ok && decide (p.nextPage = chainStart rest)
        && isChainB server rest

/-! ## Resolution Chain: `_get_sharepoint_site_id`, `_get_site_documents_drive_url`,
`_get_file_download_url`, `get_file` (lines 157-209) -/

/-- A JSON response as observed by the resolution chain and the site-url
generator: `resp.ok`, `resp.text`, `resp.json().get("id")` and
`resp.json().get("@microsoft.graph.downloadUrl")`. -/
structure JsonResponse where
  ok : Bool
  text : String
  id : Option String
  downloadUrl : Option String
deriving DecidableEq

/-- Response to the final plain (unauthenticated) `requests.get`. -/
structure PlainResponse where
  ok : Bool
  content : String
deriving DecidableEq

/-- Python truthiness of an optional string (`if site_id:` / `if drive_url:`):
`None` and the empty string are falsy. -/
def pyTruthy : Option String → Bool
  | none => false
  | some s => !(s == "")

/-- Embeds `Graph._get_sharepoint_site_id` (lines 157-166).  Returns the
authenticated URLs requested and `resp.json().get("id")` (or `None` on a
non-success response). -/
def get_sharepoint_site_id (server : String → JsonResponse)
    (graph_url site : String) : List String × Option String :=
  let url := graph_url ++ "sites/" ++ site
  let resp := server url
  if resp.ok then ([url], resp.id) else ([url], none)

/-- Embeds `Graph._get_site_documents_drive_url` (lines 168-183).  On a truthy
site id it requests `graph_url + "/sites/" + site_id + "/drive"`; a missing
drive id would make `url + "s/" + drive_id` raise a `TypeError`. -/
def get_site_documents_drive_url (server : String → JsonResponse)
    (graph_url site : String) : List String × Except PyError (Option String) :=
  let step1 := get_sharepoint_site_id server graph_url site
  if pyTruthy step1.2 then
    match step1.2 with
    | some sid =>
        let url := graph_url ++ "/sites/" ++ sid ++ "/drive"
        let resp := server url
        if resp.ok then
          match resp.id with
          | none => (step1.1 ++ [url], .error .typeErrorNoneConcat)
          | some drive_id =>
              (step1.1 ++ [url], .ok (some (url ++ "s/" ++ drive_id ++ "/root:/")))
        else
          (step1.1 ++ [url], .ok none)
    | none => (step1.1, .ok none)
  else
    (step1.1, .ok none)

/-- Embeds `Graph._get_file_download_url` (lines 185-197): only with a truthy drive
URL does it request file metadata; otherwise it logs and returns `None`
without issuing the step-3 request. -/
def get_file_download_url (server : String → JsonResponse)
    (graph_url path site : String) : List String × Except PyError (Option String) :=
  let step2 := get_site_documents_drive_url server graph_url site
  match step2.2 with
  | .error e => (step2.1, .error e)
  | .ok drive_url =>
      if pyTruthy drive_url then
        match drive_url with
        | some du =>
            let url := du ++ path
            let resp := server url
            if resp.ok then (step2.1 ++ [url], .ok resp.downloadUrl)
            else (step2.1 ++ [url], .ok none)
        | none => (step2.1, .ok none)
      else
        (step2.1, .ok none)

/-- Everything observable about one `Graph.get_file` call: authenticated URLs
requested, unauthenticated URLs fetched, and the returned bytes /
returned `None` / raised exception. -/
structure FileFetchTrace where
  authRequests : List String
  plainRequests : List String
  result : Except PyError (Option String)
deriving DecidableEq

/-- Embeds `Graph.get_file` (lines 199-209).  Faithful detail: line 204 calls
`requests.get(download_url)` WITHOUT checking `download_url` for `None`
first; `requests.get(None)` (and `requests.get("")`) raises
`MissingSchema` before any network activity. -/
def get_file (server : String → JsonResponse) (plainGet : String → PlainResponse)
    (graph_url path site : String) : FileFetchTrace :=
  let step3 := get_file_download_url server graph_url path site
  match step3.2 with
  | .error e => ⟨step3.1, [], .error e⟩
  | .ok download_url =>
      match download_url with
      | none => ⟨step3.1, [], .error .missingSchema⟩
      | some du =>
          if du == "" then ⟨step3.1, [], .error .missingSchema⟩
          else
            let resp := plainGet du
            if resp.ok then ⟨step3.1, [du], .ok (some resp.content)⟩
            else ⟨step3.1, [du], .ok none⟩

/-! ## Identifier extraction: `set_group_id` (lines 58-65) and
`Graph.__get_all_siteurls` (lines 136-147) -/

/-- Split a character list on a separator, Python `str.split` style: the
empty input gives one empty segment, and every separator occurrence starts a
new segment. -/
def splitSegs (sep : Char) : List Char → List (List Char)
  | [] => [[]]
  | c :: cs =>
      let rest := splitSegs sep cs
      if c == sep then [] :: rest
      else
        match rest with
        | [] => [[c]]
        | s :: ss => (c :: s) :: ss

/-- Python `k.split(":")[-1]`: the last segment of a key split on the namespace
separator. -/
def lastSeg (k : String) : String :=
  String.mk ((splitSegs ':' k.data).getLastD [])

/-- Embeds `set_group_id` (lines 58-65).  An entity is its ordered key/value items.
The loop reassigns `groupid` on EVERY key whose last `":"`-segment equals
`"id"`; with no such key the final `return groupid` reads an unassigned
local, raising `UnboundLocalError`. -/
def set_group_id (entity : List (String × String)) : Except PyError String :=
  match entity.foldl
      (fun acc kv => if lastSeg kv.1 == "id" then some kv.2 else acc) none with
  | some v => .ok v
  | none => .error .unboundLocal

/-- Embeds `Graph.__get_all_siteurls` (lines 136-147).  Yields, per posted entity
whose group lookup succeeds, the response paired with the `_id` it stores;
an exception from `set_group_id` ends the generator there (second
component).  Entities whose lookup returns non-success are skipped. -/
def get_all_siteurls (server : String → JsonResponse) (graph_url : String) :
    List (List (String × String)) → List (JsonResponse × String) × Option PyError
  | [] => ([], none)
  | e :: rest =>
      match set_group_id e with
      | .error err => ([], some err)
      | .ok gid =>
          let url := graph_url ++ "groups/" ++ gid ++ "/sites/root"
          let resp := server url
          let tail := get_all_siteurls server graph_url rest
          if resp.ok then ((resp, gid) :: tail.1, tail.2) else tail

/-! ## Streaming Encoder: `stream_json` (lines 216-225) -/

/-- The per-row emissions of the `for` loop in `stream_json` (lines 219-224):
a comma before every row except the first, then the serialized row (rows are
modelled by their `json.dumps` serializations). -/
def emitRows : List String → Bool → List String
  | [], _ => []
  | r :: rs, first => (if first then [] else [","]) ++ (r :: emitRows rs false)

/-- Embeds `stream_json` (lines 216-225) over an input sequence that ends normally:
opening bracket, the loop's emissions, closing bracket. -/
def stream_json (rows : List String) : List String :=
  "[" :: (emitRows rows true ++ ["]"])

/-- Embeds `stream_json` over an input sequence that raises after yielding `rows`:
the generator propagates the exception when it pulls the next record, so the
chunks emitted stop after the loop body's output — no closing bracket. -/
def stream_json_truncated (rows : List String) : List String :=
  "[" :: emitRows rows true

/-! ## Helper lemmas -/

/-- After its first row, the loop of `stream_json` emits a comma before every
remaining row. -/
lemma emitRows_false_eq (rows : List String) :
    emitRows rows false
      = match rows with
        | [] => []
        | _ :: _ => "," :: List.intersperse "," rows := by
  induction rows with
  | nil => rfl
  | cons r rs ih =>
    cases rs with
    | nil => rfl
    | cons r2 rs2 =>
      simp only [emitRows] at ih ⊢
      simp only [ih, List.intersperse]
      rfl

/-- The loop of `stream_json` emits exactly the rows interspersed with
commas. -/
lemma emitRows_true_eq (rows : List String) :
    emitRows rows true = List.intersperse "," rows := by
  cases rows with
  | nil => rfl
  | cons r rs =>
    simp only [emitRows, emitRows_false_eq]
    cases rs with
    | nil => rfl
    | cons r2 rs2 => simp [List.intersperse]

/-! ## Claim theorems -/

/-- C7: the streaming encoder emits an opening bracket, each record with a
comma before every record except the first (no trailing comma), and a closing
bracket — 0 records give `[]`, 3 records give `[r1,r2,r3]` — and when the
input sequence raises after k records the output is the truncated,
non-terminated prefix with no closing bracket. -/
theorem stream_json_encoding :
    (∀ rows : List String,
        stream_json rows = "[" :: (List.intersperse "," rows ++ ["]"]))
    ∧ (∀ rows : List String,
        stream_json_truncated rows = "[" :: List.intersperse "," rows)
    ∧ String.join (stream_json []) = "[]"
    ∧ String.join (stream_json ["r1", "r2", "r3"]) = "[r1,r2,r3]"
    ∧ String.join (stream_json_truncated ["r1", "r2"]) = "[r1,r2" := by
  refine ⟨fun rows => ?_, fun rows => ?_, rfl, rfl, rfl⟩ <;>
    simp [stream_json, stream_json_truncated, emitRows_true_eq]

/-- C6 counterexample: the exception raised by `get_token` on a non-success
token-endpoint response is one and the same value for two responses with
different bodies, so it cannot carry the response body (the source's bare
`raise` produces a constant `RuntimeError`; the body only reaches the log). -/
theorem get_token_error_is_bodyless :
    (get_token ⟨false, "bodyA", none⟩).2 = (get_token ⟨false, "bodyB", none⟩).2
    ∧ ("bodyA" : String) ≠ "bodyB" :=
  ⟨rfl, by decide⟩

/-- C6 (amended): on a non-success HTTP status the token acquisition fails
with an unhandled exception — a bare `raise` with no active exception, i.e. a
`RuntimeError` that does not carry the response body; the body is only
written to the error log — and the stored Bearer Credential is not
replaced. -/
theorem get_token_nonsuccess_raises_keeps_header (resp : TokenResponse)
    (h : Option String) (hok : resp.ok = false) :
    (get_token resp).2 = .error .runtimeNoActiveException
    ∧ get_token_final_header resp h = h
    ∧ (get_token resp).1
        = ["Acquiring new access token",
           "Access token request failed. Error: " ++ resp.content] := by
  simp [get_token, get_token_final_header, hok]

/-- C6 witness: the amended behaviour at a concrete failed token response. -/
theorem get_token_nonsuccess_witness :
    (get_token ⟨false, "denied", none⟩).2 = .error .runtimeNoActiveException
    ∧ get_token_final_header ⟨false, "denied", none⟩ (some "Bearer old")
        = some "Bearer old"
    ∧ (get_token ⟨false, "denied", none⟩).1
        = ["Acquiring new access token",
           "Access token request failed. Error: " ++ "denied"] :=
  get_token_nonsuccess_raises_keeps_header ⟨false, "denied", none⟩
    (some "Bearer old") rfl

/-- C10: on a success token-endpoint response whose JSON body lacks
`access_token`, `get_token` raises an unhandled `TypeError` (concatenating
`None` into the header string) instead of storing a credential, and the
previously stored Bearer Credential is left unchanged. -/
theorem get_token_missing_access_token (resp : TokenResponse)
    (h : Option String) (hok : resp.ok = true)
    (hmiss : resp.access_token = none) :
    (get_token resp).2 = .error .typeErrorNoneConcat
    ∧ get_token_final_header resp h = h := by
  simp [get_token, get_token_final_header, hok, hmiss]

/-- C10 witness: concrete success response with no `access_token` field. -/
theorem get_token_missing_access_token_witness :
    (get_token ⟨true, "irrelevant", none⟩).2 = .error .typeErrorNoneConcat
    ∧ get_token_final_header ⟨true, "irrelevant", none⟩ (some "Bearer old")
        = some "Bearer old" :=
  get_token_missing_access_token ⟨true, "irrelevant", none⟩ (some "Bearer old")
    rfl rfl

/-- An executor state that already holds a session and a credential. -/
def stAuthed : GraphState := ⟨true, some "Bearer t0"⟩

/-- A token endpoint that always issues the fresh token `t1`. -/
def tokensFresh : Nat → TokenResponse := fun _ => ⟨true, "", some "t1"⟩

/-- Wire responses: 401 to the first send, 200 to the retry. -/
def responses401 : Nat → HttpResponse :=
  fun i => if i == 0 then ⟨401, "unauthorized"⟩ else ⟨200, "payload"⟩

/-- C2: at a concrete run — executor holding `Bearer t0`, first response 401,
token endpoint issuing fresh token `t1` — the retry send still carries
`Bearer t0` (the `Request` object's headers keep referencing the pre-refresh
dict) even though the stored credential has become `Bearer t1`; the retry
does NOT carry the newly acquired credential. -/
theorem request_retry_carries_stale_header :
    (Graph.request stAuthed tokensFresh responses401).sends
      = [(some "Bearer t0", ⟨401, "unauthorized"⟩),
         (some "Bearer t0", ⟨200, "payload"⟩)]
    ∧ (Graph.request stAuthed tokensFresh responses401).finalState.auth_header
      = some "Bearer t1" := by
  constructor <;> rfl

/-- C1: for an executor past its lazy first-use initialization (a live
session), a 401 first response triggers exactly one token acquisition and
exactly one re-send of the same request, and the second response — whatever
its status, in particular another 401 — is returned to the caller as-is with
no further acquisition and no further retry. -/
theorem request_single_retry_on_401 (st : GraphState)
    (tokens : Nat → TokenResponse) (responses : Nat → HttpResponse)
    (hdr : String) (hs : st.session = true)
    (h401 : (responses 0).status = 401)
    (htok : (get_token (tokens 0)).2 = .ok hdr) :
    Graph.request st tokens responses
      = ⟨[(st.auth_header, responses 0), (st.auth_header, responses 1)], 1,
         .ok (responses 1), ⟨true, some hdr⟩⟩ := by
  simp [Graph.request, hs, h401, htok]

/-- Wire responses: 401 to every send. -/
def responsesBoth401 : Nat → HttpResponse := fun _ => ⟨401, "denied"⟩

/-- An executor state holding a session and the credential `Bearer old`. -/
def stOld : GraphState := ⟨true, some "Bearer old"⟩

/-- C1 witness: two consecutive 401s — one refresh, one retry, the second
401 returned as-is. -/
theorem request_single_retry_on_401_witness :
    Graph.request stOld tokensFresh responsesBoth401
      = ⟨[(some "Bearer old", ⟨401, "denied"⟩),
          (some "Bearer old", ⟨401, "denied"⟩)], 1,
         .ok ⟨401, "denied"⟩, ⟨true, some "Bearer t1"⟩⟩ :=
  request_single_retry_on_401 stOld tokensFresh responsesBoth401 "Bearer t1"
    rfl rfl rfl

/-- Running the fetch loop along a well-formed page chain yields the
concatenation of the pages' entity collections in order, requests exactly the
chain's URLs in order, and terminates normally at the final null cursor. -/
lemma fetchLoop_chain (server : String → Page) (sleepCfg : Option ℚ) :
    ∀ (ch : List (String × Page)) (fuel : Nat),
      isChainB server ch = true → ch.length ≤ fuel →
      (fetchLoop server sleepCfg fuel (chainStart ch)).yielded
          = (ch.map (fun up => up.2.entities)).flatten
      ∧ (fetchLoop server sleepCfg fuel (chainStart ch)).requests.map Prod.fst
          = ch.map Prod.fst
      ∧ (fetchLoop server sleepCfg fuel (chainStart ch)).outcome = .done := by
  intro ch
  induction ch with
  | nil =>
    intro fuel _ _
    simp [chainStart, fetchLoop]
  | cons up rest ih =>
    intro fuel hch hlen
    obtain ⟨u, p⟩ := up
    simp only [isChainB, Bool.and_eq_true, decide_eq_true_eq] at hch
    obtain ⟨⟨⟨h1, h2⟩, h3⟩, h4⟩ := hch
    cases fuel with
    | zero => simp at hlen
    | succ f =>
      have hlen2 : rest.length ≤ f := by
        simp only [List.length_cons] at hlen
        omega
      obtain ⟨iy, ir, io⟩ := ih f h4 hlen2
      have hstart : chainStart ((u, p) :: rest) = some u := rfl
      rw [hstart]
      refine ⟨?_, ?_, ?_⟩ <;>
        simp [fetchLoop, h1, h2, h3, iy, ir, io]

/-- Every request issued by the fetch loop attaches the caller's query
arguments exactly when its URL does not contain the substring
`"$skiptoken"`. -/
lemma fetchLoop_args_marker (server : String → Page) (sleepCfg : Option ℚ) :
    ∀ (fuel : Nat) (cur : Option String) (u : String) (w : Bool),
      (u, w) ∈ (fetchLoop server sleepCfg fuel cur).requests →
      w = !(strContainsSub u "$skiptoken") := by
  intro fuel
  induction fuel with
  | zero =>
    intro cur u w h
    cases cur <;> simp [fetchLoop] at h
  | succ f ih =>
    intro cur u w h
    cases cur with
    | none => simp [fetchLoop] at h
    | some url =>
      by_cases hok : (server url).ok
      · simp only [fetchLoop, hok, if_true, List.mem_cons] at h
        rcases h with h | h
        · obtain ⟨hu, hw⟩ := Prod.mk.injEq .. ▸ h
          rw [hw, hu]
        · exact ih _ u w h
      · simp only [fetchLoop, hok, if_false, Bool.false_eq_true,
          List.mem_cons, List.not_mem_nil, or_false] at h
        obtain ⟨hu, hw⟩ := Prod.mk.injEq .. ▸ h
        rw [hw, hu]

/-- C3: for every chain of N successfully fetched pages starting at
`graph_url + path` and ending in a page with a null/missing cursor, the
fetcher yields exactly the concatenation of the N pages' entity collections
in server order, follows each cursor URL verbatim in the order received, and
terminates exactly once at the null cursor. -/
theorem paged_entities_follow_chain (server : String → Page)
    (sleepCfg : Option ℚ) (graph_url path : String)
    (ch : List (String × Page)) (fuel : Nat)
    (hch : isChainB server ch = true)
    (hstart : chainStart ch = some (graph_url ++ path))
    (hfuel : ch.length ≤ fuel) :
    (get_all_paged_entities server sleepCfg graph_url path fuel).yielded
        = (ch.map (fun up => up.2.entities)).flatten
    ∧ (get_all_paged_entities server sleepCfg graph_url path fuel).requests.map
        Prod.fst = ch.map Prod.fst
    ∧ (get_all_paged_entities server sleepCfg graph_url path fuel).outcome
        = .done := by
  have h := fetchLoop_chain server sleepCfg ch fuel hch hfuel
  rw [hstart] at h
  simpa [get_all_paged_entities] using h

/-- First page of the concrete two-page world. -/
def pageOne : Page := ⟨true, 200, "", ["e1"], some "https://g/next?$skip=10"⟩

/-- Second (final) page of the concrete two-page world; its cursor field is
null. -/
def pageTwo : Page := ⟨true, 200, "", ["e2"], none⟩

/-- A concrete server serving a two-page collection whose next-page cursor
URL uses `$skip`, not `$skiptoken`. -/
def pageServerA : String → Page := fun u =>
  if u = "https://graph.microsoft.com/v1.0/things" then pageOne
  else if u = "https://g/next?$skip=10" then pageTwo
  else ⟨false, 404, "not found", [], none⟩

/-- The page chain `pageServerA` serves. -/
def chainA : List (String × Page) :=
  [("https://graph.microsoft.com/v1.0/things", pageOne),
   ("https://g/next?$skip=10", pageTwo)]

/-- C3 witness: the two-page chain, evaluated concretely. -/
theorem paged_entities_follow_chain_witness :
    (get_all_paged_entities pageServerA none "https://graph.microsoft.com/v1.0/"
        "things" 5).yielded = (chainA.map (fun up => up.2.entities)).flatten
    ∧ (get_all_paged_entities pageServerA none "https://graph.microsoft.com/v1.0/"
        "things" 5).requests.map Prod.fst = chainA.map Prod.fst
    ∧ (get_all_paged_entities pageServerA none "https://graph.microsoft.com/v1.0/"
        "things" 5).outcome = .done :=
  paged_entities_follow_chain pageServerA none "https://graph.microsoft.com/v1.0/"
    "things" chainA 5 (by decide) rfl (by decide)

/-- C4 counterexample: in the concrete two-page run the second page is
addressed by the server-issued cursor URL `https://g/next?$skip=10`, which
does not contain `"$skiptoken"`, and its request is issued WITH the caller's
query arguments re-applied (second component `true`), contradicting the claim
that requests for cursor-addressed pages never re-apply the caller's query
arguments regardless of the cursor URL's contents. -/
theorem paged_args_reapplied_on_cursor :
    (get_all_paged_entities pageServerA none "https://graph.microsoft.com/v1.0/"
        "things" 5).requests
      = [("https://graph.microsoft.com/v1.0/things", true),
         ("https://g/next?$skip=10", true)] := by
  decide

/-- C4 (amended): the caller's query arguments are attached to exactly those
page requests — first or cursor-addressed — whose URL does not contain the
substring `"$skiptoken"`, and omitted from those whose URL does; in
particular a cursor URL lacking `"$skiptoken"` has the caller's query
arguments re-applied. -/
theorem paged_args_iff_no_skiptoken (server : String → Page)
    (sleepCfg : Option ℚ) (graph_url path : String) (fuel : Nat)
    (u : String) (w : Bool)
    (hmem : (u, w) ∈ (get_all_paged_entities server sleepCfg graph_url path
        fuel).requests) :
    w = !(strContainsSub u "$skiptoken") :=
  fetchLoop_args_marker server sleepCfg fuel (some (graph_url ++ path)) u w hmem

/-- C4 witness: the amended rule at the concrete cursor URL without
`"$skiptoken"`. -/
theorem paged_args_iff_no_skiptoken_witness :
    true = !(strContainsSub "https://g/next?$skip=10" "$skiptoken") :=
  paged_args_iff_no_skiptoken pageServerA none "https://graph.microsoft.com/v1.0/"
    "things" 5 "https://g/next?$skip=10" true (by decide)

/-- C9: with the inter-page delay configured to 500 — milliseconds per the
configuration contract — a two-page fetch passes 500 to `time.sleep` before
each page, suspending for 1000000 ms in total (500 SECONDS per page), not the
500 ms per page (1000 ms total) the claim states; with no delay configured no
`time.sleep` call is made at all. -/
theorem sleep_uses_seconds_not_milliseconds :
    (get_all_paged_entities pageServerA (some 500)
        "https://graph.microsoft.com/v1.0/" "things" 5).sleepArgs = [500, 500]
    ∧ totalSuspensionMs (get_all_paged_entities pageServerA (some 500)
        "https://graph.microsoft.com/v1.0/" "things" 5) = 1000000
    ∧ (1000000 : ℚ) ≠ 500 * 2
    ∧ (get_all_paged_entities pageServerA none
        "https://graph.microsoft.com/v1.0/" "things" 5).sleepArgs = [] := by
  refine ⟨by decide, ?_, by norm_num, by decide⟩
  have h : (get_all_paged_entities pageServerA (some 500)
      "https://graph.microsoft.com/v1.0/" "things" 5).sleepArgs = [500, 500] := by
    decide
  rw [totalSuspensionMs, h]
  norm_num [timeSleepMs]

/-- A left fold that overwrites its accumulator at every element satisfying
`p` computes the value at the LAST such element — equivalently, the first
match of the reversed list. -/
lemma foldl_override_eq_find_reverse (p : String × String → Bool) :
    ∀ (l : List (String × String)) (acc : Option String),
      l.foldl (fun acc kv => if p kv then some kv.2 else acc) acc
        = match l.reverse.find? p with
          | some kv => some kv.2
          | none => acc := by
  intro l
  induction l using List.reverseRecOn with
  | nil => intro acc; rfl
  | append_singleton l kv ih =>
    intro acc
    rw [List.foldl_append, List.reverse_append]
    cases hp : p kv with
    | true => simp [hp, List.find?_cons_of_pos]
    | false => simp [hp, List.find?_cons_of_neg, ih acc]

/-- C8 counterexample: an entity with two namespaced id keys, in order
`a:id ↦ 1` then `b:id ↦ 2`.  The extraction helper returns `2`, the value of
the LAST matching key, not `1`, the value of the first as the claim states. -/
theorem set_group_id_not_first_match :
    set_group_id [("a:id", "1"), ("b:id", "2")] = .ok "2"
    ∧ ("2" : String) ≠ "1" :=
  ⟨rfl, by decide⟩

/-- C8 (amended): the extracted identifier is the value of the LAST key whose
name, split on the namespace separator `":"`, has final segment `"id"`
(equivalently, the first such key of the reversed item list); an entity with
no such key makes the helper raise an unhandled `UnboundLocalError`
(`groupid` is never assigned and has no fallback), which ends the
site-resolution batch at that entity. -/
theorem set_group_id_last_match :
    (∀ entity : List (String × String),
        set_group_id entity
          = match entity.reverse.find? (fun kv => lastSeg kv.1 == "id") with
            | some kv => .ok kv.2
            | none => .error .unboundLocal)
    ∧ (∀ (server : String → JsonResponse) (graph_url : String)
          (e : List (String × String)) (rest : List (List (String × String))),
        set_group_id e = .error .unboundLocal →
        get_all_siteurls server graph_url (e :: rest) = ([], some .unboundLocal)) := by
  constructor
  · intro entity
    rw [set_group_id, foldl_override_eq_find_reverse]
    cases entity.reverse.find? (fun kv => lastSeg kv.1 == "id") <;> rfl
  · intro server graph_url e rest he
    simp [get_all_siteurls, he]

/-- C8 witness: the amended behaviour at concrete entities — last-match
extraction on `[a:id ↦ 1, b:id ↦ 2]`, and batch abort on an entity whose
only key is `name`. -/
theorem set_group_id_last_match_witness :
    (set_group_id [("a:id", "1"), ("b:id", "2")]
        = match [("a:id", "1"), ("b:id", "2")].reverse.find?
            (fun kv => lastSeg kv.1 == "id") with
          | some kv => .ok kv.2
          | none => .error .unboundLocal)
    ∧ get_all_siteurls (fun _ => ⟨true, "", none, none⟩) "https://g/"
        [[("name", "x")]] = ([], some .unboundLocal) :=
  ⟨set_group_id_last_match.1 [("a:id", "1"), ("b:id", "2")],
   set_group_id_last_match.2 (fun _ => ⟨true, "", none, none⟩) "https://g/"
     [("name", "x")] [] (by decide)⟩

/-- A concrete resolution world: the site lookup succeeds with id `S1`; the
drive lookup for `S1` returns a non-success status; everything else 404s. -/
def resServerA : String → JsonResponse := fun u =>
  if u = "https://graph.microsoft.com/v1.0/sites/SITE" then
    ⟨true, "", some "S1", none⟩
  else if u = "https://graph.microsoft.com/v1.0//sites/S1/drive" then
    ⟨false, "drive lookup failed", none, none⟩
  else
    ⟨false, "not found", none, none⟩

/-- An unauthenticated transport that would succeed if it were ever used. -/
def plainGetA : String → PlainResponse := fun _ => ⟨true, "bytes"⟩

/-- C5: in the concrete world where the drive-URL lookup (step 2) fails, the
download-URL lookup (step 3) is never attempted — the only authenticated
requests are the step-1 and step-2 URLs — and no unauthenticated fetch URL is
ever contacted; but the overall result is NOT null: `get_file` passes the
null download URL straight to `requests.get`, which raises an unhandled
`MissingSchema` exception. -/
theorem get_file_drive_failure_raises :
    get_file resServerA plainGetA "https://graph.microsoft.com/v1.0/"
        "f.csv" "SITE"
      = ⟨["https://graph.microsoft.com/v1.0/sites/SITE",
          "https://graph.microsoft.com/v1.0//sites/S1/drive"],
         [], .error .missingSchema⟩ := by
  decide

end O365
